import Mathlib

/-!
Shallow embedding of the EnergyPlus weather scraper core
(src/parser.py, src/data_handler.py, src/scraper.py, src/config.py).

Python strings are modelled as Lean `String` (operated on through their
character lists), byte buffers as `List Byte` with `Byte := Fin 256`,
Python dictionaries keyed by strings as association lists, and fallible
functions (returning `None` / raising) as `Option`-valued functions.
-/

/-- Bytes of the fetched EPW header (`bytes` in Python). -/
abbrev Byte := Fin 256

/-- Characters Python `str.strip()` removes (ASCII whitespace). -/
def pyIsSpace (c : Char) : Bool :=
  c == ' ' || c == '\t' || c == '\n' || c == '\r' || c == Char.ofNat 11 || c == Char.ofNat 12

/-- Python `str.strip()` on a character list: drop whitespace at both ends. -/
def pystrip (cs : List Char) : List Char :=
  ((cs.dropWhile pyIsSpace).reverse.dropWhile pyIsSpace).reverse

/-- Python `str.split(",")` over a character list: the result always has one
more element than the number of commas, and is never empty. -/
def splitCommaList : List Char → List (List Char)
  | [] => [[]]
  | c :: cs =>
    match splitCommaList cs with
    | [] => [[]]
    | h :: t => if c = ',' then [] :: h :: t else (c :: h) :: t

/-- Python `line.split(",")` producing strings. -/
def pysplit (s : String) : List String :=
  (splitCommaList s.toList).map String.mk

/-- Helper of `pytitle`: the Boolean records whether the previous character
was alphabetic (Python: cased), as in CPython's `str.title`. -/
def titleAux : Bool → List Char → List Char
  | _, [] => []
  | prevCased, c :: cs =>
    if c.isAlpha then
      (if prevCased then c.toLower else c.toUpper) :: titleAux true cs
    else
      c :: titleAux false cs

/-- Python `str.title()`: first letter of each alphabetic run uppercased,
the rest of the run lowercased, other characters unchanged. -/
def pytitle (s : String) : String :=
  String.mk (titleAux false s.toList)

/-- Strict UTF-8 decoding as performed by Python `bytes.decode("utf-8")`:
rejects stray continuation bytes, overlong forms, surrogates, code points
above U+10FFFF and truncated sequences. -/
def utf8Decode : List Byte → Option (List Char)
  | [] => some []
  | b1 :: rest =>
    if b1.val ≤ 0x7F then
      match utf8Decode rest with
      | some cs => some (Char.ofNat b1.val :: cs)
      | none => none
    else if b1.val < 0xC2 then none
    else if b1.val ≤ 0xDF then
      match rest with
      | b2 :: rest2 =>
        if 0x80 ≤ b2.val ∧ b2.val ≤ 0xBF then
          match utf8Decode rest2 with
          | some cs => some (Char.ofNat ((b1.val - 0xC0) * 64 + (b2.val - 0x80)) :: cs)
          | none => none
        else none
      | [] => none
    else if b1.val ≤ 0xEF then
      match rest with
      | b2 :: b3 :: rest3 =>
        if (if b1.val = 0xE0 then 0xA0 ≤ b2.val ∧ b2.val ≤ 0xBF
            else if b1.val = 0xED then 0x80 ≤ b2.val ∧ b2.val ≤ 0x9F
            else 0x80 ≤ b2.val ∧ b2.val ≤ 0xBF) ∧ 0x80 ≤ b3.val ∧ b3.val ≤ 0xBF then
          match utf8Decode rest3 with
          | some cs =>
            some (Char.ofNat ((b1.val - 0xE0) * 4096 + (b2.val - 0x80) * 64 + (b3.val - 0x80)) :: cs)
          | none => none
        else none
      | _ => none
    else if b1.val ≤ 0xF4 then
      match rest with
      | b2 :: b3 :: b4 :: rest4 =>
        if (if b1.val = 0xF0 then 0x90 ≤ b2.val ∧ b2.val ≤ 0xBF
            else if b1.val = 0xF4 then 0x80 ≤ b2.val ∧ b2.val ≤ 0x8F
            else 0x80 ≤ b2.val ∧ b2.val ≤ 0xBF) ∧
           (0x80 ≤ b3.val ∧ b3.val ≤ 0xBF) ∧ 0x80 ≤ b4.val ∧ b4.val ≤ 0xBF then
          match utf8Decode rest4 with
          | some cs =>
            some (Char.ofNat ((b1.val - 0xF0) * 262144 + (b2.val - 0x80) * 4096 +
              (b3.val - 0x80) * 64 + (b4.val - 0x80)) :: cs)
          | none => none
        else none
      | _ => none
    else none

/-- Python `bytes.decode("iso-8859-1")`: every byte maps to the code point of
the same value, so this decoding is total. -/
def latin1Decode (content : List Byte) : List Char :=
  content.map (fun b => Char.ofNat b.val)

/-- `DECODING_SCHEMES = ["utf-8", "iso-8859-1"]` (src/parser.py line 14). -/
inductive DecodingScheme where
  | utf8 : DecodingScheme
  | iso8859_1 : DecodingScheme
deriving DecidableEq, Repr

def DECODING_SCHEMES : List DecodingScheme := [.utf8, .iso8859_1]

/-- One attempt of the loop body of `_try_decode_bytes`. -/
def decodeWith : DecodingScheme → List Byte → Option (List Char)
  | .utf8, content => utf8Decode content
  | .iso8859_1, content => some (latin1Decode content)

/-- Embedding of `_try_decode_bytes` (src/parser.py lines 50-80): try each
scheme in `DECODING_SCHEMES` in order, returning the first decoding that
succeeds; if every scheme fails, return `none`. -/
def tryDecodeList : List DecodingScheme → List Byte → Option (List Char)
  | [], _ => none
  | scheme :: rest, content =>
    match decodeWith scheme content with
    | some t => some t
    | none => tryDecodeList rest content

def _try_decode_bytes (content : List Byte) : Option (List Char) :=
  tryDecodeList DECODING_SCHEMES content

/-- Embedding of `extract_epw_location_line` (src/parser.py lines 24-47):
decode the bytes, then return the text before the first newline, stripped,
or `none` when decoding fails or no newline is present. -/
def extract_epw_location_line (epw_content : List Byte) : Option String :=
  match _try_decode_bytes epw_content with
  | none => none
  | some decoded_text =>
    if decoded_text.contains '\n' then
      some (String.mk (pystrip (decoded_text.takeWhile (fun c => c != '\n'))))
    else
      none

/-- The nine EPW location fields of `FIELD_NAMES` (src/config.py), in order;
`parse_epw_location_line` zips the split fields onto these keys positionally,
which this structure models by position. -/
structure Location where
  location : String
  region : String
  country : String
  weather_source : String
  wmo_index : String
  latitude : String
  longitude : String
  tz_offset : String
  elevation : String
deriving DecidableEq, Repr

/-- `FIELD_NAMES` from src/config.py (the parser refers to it as the list of
keys to zip with the split fields). -/
def FIELD_NAMES : List String :=
  ["location", "region", "country", "weather_source", "wmo_index",
   "latitude", "longitude", "tz_offset", "elevation"]

/-- The check and record construction of `parse_epw_location_line` applied to
the list of comma-separated fields: the first field must be the literal
"LOCATION" and exactly 9 fields must follow; the station name is
title-cased, a region shorter than 2 characters becomes empty, and the other
seven fields pass through unchanged (the `dict(zip(keys, data))` of the
Python code, modelled positionally). -/
def parseFields : List String → Option Location
  | d0 :: f0 :: f1 :: f2 :: f3 :: f4 :: f5 :: f6 :: f7 :: f8 :: [] =>
    if d0 = "LOCATION" then
      some
        { location := pytitle f0
          region := if f1.length < 2 then "" else f1
          country := f2
          weather_source := f3
          wmo_index := f4
          latitude := f5
          longitude := f6
          tz_offset := f7
          elevation := f8 }
    else none
  | _ => none

/-- Embedding of `parse_epw_location_line` (src/parser.py lines 83-110).
Raising `MalformedLocationDataError` is modelled as `none`. -/
def parse_epw_location_line (line : String) : Option Location :=
  parseFields (pysplit line)

/-! ### data_handler.py -/

/-- The merge store: Python `dict[str, dict]` keyed by WMO index, modelled as
an association list in which assignment to a fresh key appends at the end and
assignment to a present key replaces in place (Python dict insertion order). -/
abbrev Store := List (String × Location)

/-- Python `wmo_index in processed_locations` / `processed_locations[wmo_index]`. -/
def storeLookup : Store → String → Option Location
  | [], _ => none
  | (k, v) :: rest, key => if k = key then some v else storeLookup rest key

/-- Python `processed_locations[wmo_index] = new_location` when the key is
already present: the value is replaced, keeping its position. -/
def storeReplace : Store → String → Location → Store
  | [], _, _ => []
  | (k, v) :: rest, key, nv =>
    if k = key then (k, nv) :: rest else (k, v) :: storeReplace rest key nv

/-- The priority table: Python `dict[str, int]`. -/
abbrev PriorityTable := List (String × Nat)

/-- Python `priority.get(source, 0)`. -/
def priorityGet : PriorityTable → String → Nat
  | [], _ => 0
  | (k, v) :: rest, key => if k = key then v else priorityGet rest key

/-- `SOURCE_PRIORITY` from src/config.py. -/
def SOURCE_PRIORITY : PriorityTable :=
  [("TMY3", 10), ("CWEC", 9), ("CSWD", 8), ("IWEC", 7),
   ("SWERA", 6), ("TMY2", 5), ("TMY", 4), ("CTZRV2", 3)]

/-- Embedding of `add_location` (src/data_handler.py lines 13-51): insert the
record when its WMO index is absent; otherwise replace the stored record
exactly when the new record's weather source has strictly higher priority
(absent sources defaulting to 0). Python mutates `processed_locations` in
place; here the updated store is returned. -/
def add_location (new_location : Location) (processed_locations : Store)
    (priority : PriorityTable) : Store :=
  match storeLookup processed_locations new_location.wmo_index with
  | none => processed_locations ++ [(new_location.wmo_index, new_location)]
  | some existing =>
    if priorityGet priority new_location.weather_source >
        priorityGet priority existing.weather_source then
      storeReplace processed_locations new_location.wmo_index new_location
    else
      processed_locations

/-- Modelled from the spec: the helper `_clean_weather_source` is imported and
exercised by tests/test_data_handler.py but its definition is not present in
src/data_handler.py. Following the spec (§4.4) and the repository's test
examples: strip surrounding whitespace and leading non-alphanumeric separator
characters, then extract the leading alphanumeric run as the canonical code
("TMY2-23232" to "TMY2", "IWEC Data" to "IWEC", "--WYEC2-B-14636" to "WYEC2",
"  TMY--40309" to "TMY"). -/
def _clean_weather_source (s : String) : String :=
  String.mk ((s.toList.dropWhile (fun c => !c.isAlphanum)).takeWhile (fun c => c.isAlphanum))

/-- The incoming record with its weather source replaced by the canonical code. -/
def cleanRecord (new_location : Location) : Location :=
  { new_location with weather_source := _clean_weather_source new_location.weather_source }

/-- Modelled from the spec: `PriorityMergeStore.insert` canonicalizes the
incoming record's source label before ranking, uses the canonical code for the
priority lookup, and substitutes it into the stored record (spec §4.4); the
src/ copy of `add_location` lacks this call although the repository's tests
require the canonicalization helper. -/
def add_location_canonical (new_location : Location) (processed_locations : Store)
    (priority : PriorityTable) : Store :=
  add_location (cleanRecord new_location) processed_locations priority

example : _clean_weather_source "TMY2-23232" = "TMY2" := by decide
example : _clean_weather_source "--WYEC2-B-14636" = "WYEC2" := by decide

/-! ### scraper.py -/

/-- `MAX_RETRIES` from src/config.py line 11. -/
def MAX_RETRIES : Nat := 3

/-- Embedding of the retry loop of `scrape` (src/scraper.py lines 37-49):
`while epw_header is None and retries < MAX_RETRIES`, calling the fetch once
per iteration. `fetch i` is the outcome of attempt number `i`; the result
pairs the final header value with the final value of `retries`, which counts
the fetch calls made. `fuel` is the number of allowed attempts left. -/
def fetchRetryLoop (fetch : Nat → Option (List Byte)) : Nat → Nat → Option (List Byte) × Nat
  | retries, 0 => (none, retries)
  | retries, fuel + 1 =>
    match fetch retries with
    | some b => (some b, retries + 1)
    | none => fetchRetryLoop fetch (retries + 1) fuel

/-- One URL's fetch with retries, as performed by `scrape`. -/
def fetchWithRetries (fetch : Nat → Option (List Byte)) : Option (List Byte) × Nat :=
  fetchRetryLoop fetch 0 MAX_RETRIES

/-- One GeoJSON feature as far as `_get_epw_file_urls` inspects it: either its
"properties" key is missing or not a dictionary, or it is a dictionary and
`properties.get("epw", "")` is the given anchor snippet. -/
inductive Feature where
  | noProps : Feature
  | withEpw (anchor : String) : Feature
deriving DecidableEq, Repr

/-- Embedding of `_extract_url_from_anchor` (src/scraper.py): an empty snippet
yields `none`; otherwise the anchor is handed to the HTML parser
(BeautifulSoup), modelled by the oracle `soupHref`, which returns the href of
the first anchor tag when one exists. -/
def _extract_url_from_anchor (soupHref : String → Option String)
    (html_snippet : String) : Option String :=
  if html_snippet = "" then none else soupHref html_snippet

/-- Embedding of `_get_epw_file_urls` (src/scraper.py): skip features without
a dictionary "properties"; collect the URLs the anchor extraction yields. -/
def _get_epw_file_urls (soupHref : String → Option String) : List Feature → List String
  | [] => []
  | .noProps :: rest => _get_epw_file_urls soupHref rest
  | .withEpw anchor :: rest =>
    match _extract_url_from_anchor soupHref anchor with
    | some url => url :: _get_epw_file_urls soupHref rest
    | none => _get_epw_file_urls soupHref rest

/-- Embedding of the per-URL loop of `scrape` (src/scraper.py lines 37-68):
fetch the header with retries, extract and parse the first line, and insert
the record, skipping the URL on any failure. `fetch url i` is the outcome of
attempt `i` for `url`. Returns the store plus `successfully_processed`. -/
def scrapeLoop (fetch : String → Nat → Option (List Byte)) :
    List String → Store × Nat → Store × Nat
  | [], acc => acc
  | url :: rest, (store, n) =>
    match (fetchWithRetries (fetch url)).1 with
    | none => scrapeLoop fetch rest (store, n)
    | some epw_header =>
      match extract_epw_location_line epw_header with
      | none => scrapeLoop fetch rest (store, n)
      | some first_line =>
        match parse_epw_location_line first_line with
        | none => scrapeLoop fetch rest (store, n)
        | some new_location =>
          scrapeLoop fetch rest (add_location new_location store SOURCE_PRIORITY, n + 1)

/-- The numbers reported by the final log of `scrape`
(src/scraper.py lines 70-77): `successfully_processed`, `len(locations)` and
`len(processed_locations)`. -/
structure ScrapeSummary where
  processed : Nat
  total : Nat
  unique : Nat
deriving DecidableEq, Repr

/-- Embedding of `scrape` (src/scraper.py): extract the EPW URLs from the
fetched features, run the per-URL loop, and report the final summary. The
GeoJSON fetch and the HTML anchor parser are external collaborators, passed
as the feature list and the `soupHref` oracle. -/
def scrape (soupHref : String → Option String)
    (fetch : String → Nat → Option (List Byte)) (locations : List Feature) :
    Store × ScrapeSummary :=
  let urls := _get_epw_file_urls soupHref locations
  let result := scrapeLoop fetch urls ([], 0)
  (result.1, { processed := result.2, total := locations.length, unique := result.1.length })

/-! ### Sample data (mirroring tests/test_data_handler.py) -/

def locA_TMY3 : Location :=
  ⟨"Location A", "CA", "USA", "TMY3", "12345", "35.0", "-120.0", "-8.0", "244.0"⟩

def locA_TMY2 : Location :=
  ⟨"Location A", "CA", "USA", "TMY2", "12345", "35.0", "-120.0", "-8.0", "244.0"⟩

def locA_alt : Location :=
  ⟨"Location A alt", "CA", "USA", "TMY3", "12345", "35.1", "-120.1", "-8.0", "240.0"⟩

def locGeneva : Location :=
  ⟨"Geneva", "", "CHE", "IWEC Data", "067000", "46.25", "6.13", "1.0", "416.0"⟩

/-- Bytes of an ASCII string, for concrete EPW header buffers. -/
def asciiBytes (s : String) : List Byte :=
  s.toList.map (fun c => ⟨c.toNat % 256, Nat.mod_lt _ (by omega)⟩)

/-! ### Store lemmas -/

theorem storeLookup_append_of_none {s t : Store} {k : String}
    (h : storeLookup s k = none) : storeLookup (s ++ t) k = storeLookup t k := by
  induction s with
  | nil => rfl
  | cons hd tl ih =>
    obtain ⟨k1, v1⟩ := hd
    by_cases hk : k1 = k
    · simp [storeLookup, hk] at h
    · simp only [storeLookup, hk, List.cons_append, if_false] at h ⊢
      exact ih h

theorem storeReplace_append_of_none {s : Store} {k : String} {v nv : Location}
    (h : storeLookup s k = none) :
    storeReplace (s ++ [(k, v)]) k nv = s ++ [(k, nv)] := by
  induction s with
  | nil => simp [storeReplace]
  | cons hd tl ih =>
    obtain ⟨k1, v1⟩ := hd
    by_cases hk : k1 = k
    · simp [storeLookup, hk] at h
    · simp only [storeLookup, hk, if_false] at h
      simp only [List.cons_append, storeReplace, hk, if_false, List.append_eq]
      rw [ih h]

theorem storeFilterKey_of_none {s : Store} {k : String}
    (h : storeLookup s k = none) :
    s.filter (fun e => decide (e.1 = k)) = [] := by
  induction s with
  | nil => rfl
  | cons hd tl ih =>
    obtain ⟨k1, v1⟩ := hd
    by_cases hk : k1 = k
    · simp [storeLookup, hk] at h
    · simp only [storeLookup, hk, if_false] at h
      simp [List.filter, hk, ih h]

theorem add_location_of_lookup_none {new_location : Location} {s : Store}
    {p : PriorityTable} (h : storeLookup s new_location.wmo_index = none) :
    add_location new_location s p = s ++ [(new_location.wmo_index, new_location)] := by
  unfold add_location
  rw [h]

theorem add_location_of_lookup_some {new_location existing : Location} {s : Store}
    {p : PriorityTable} (h : storeLookup s new_location.wmo_index = some existing) :
    add_location new_location s p =
      if priorityGet p new_location.weather_source >
          priorityGet p existing.weather_source then
        storeReplace s new_location.wmo_index new_location
      else s := by
  unfold add_location
  rw [h]

/-! ### Parser lemmas -/

theorem parseFields_eq_none_iff (l : List String) :
    parseFields l = none ↔ (l.headD "" ≠ "LOCATION" ∨ l.length ≠ 10) := by
  rcases l with _ | ⟨d0, _ | ⟨f0, _ | ⟨f1, _ | ⟨f2, _ | ⟨f3, _ | ⟨f4, _ | ⟨f5, _ | ⟨f6, _ |
    ⟨f7, _ | ⟨f8, _ | ⟨f9, tail⟩⟩⟩⟩⟩⟩⟩⟩⟩⟩⟩ <;>
    simp [parseFields]

theorem parseFields_wmo_index (l : List String) (loc : Location)
    (h : parseFields l = some loc) : loc.wmo_index = l.getD 5 "" := by
  rcases l with _ | ⟨d0, _ | ⟨f0, _ | ⟨f1, _ | ⟨f2, _ | ⟨f3, _ | ⟨f4, _ | ⟨f5, _ | ⟨f6, _ |
    ⟨f7, _ | ⟨f8, _ | ⟨f9, tail⟩⟩⟩⟩⟩⟩⟩⟩⟩⟩⟩ <;> simp [parseFields] at h
  obtain ⟨hd, hrec⟩ := h
  subst hrec
  rfl

/-! ### Claim theorems: MetadataLineParser -/

/-- Claim C4: `parse_epw_location_line` fails exactly when the first
comma-separated field is not the literal "LOCATION" or the total number of
fields is not 10 (the marker plus exactly 9 record fields); every line with
the marker and exactly 9 trailing fields yields a record. -/
theorem parse_rejects_iff_marker_or_field_count (line : String) :
    parse_epw_location_line line = none ↔
      ((pysplit line).headD "" ≠ "LOCATION" ∨ (pysplit line).length ≠ 10) := by
  unfold parse_epw_location_line
  exact parseFields_eq_none_iff (pysplit line)

theorem parse_rejects_iff_marker_or_field_count_witness :
    (parse_epw_location_line
        "LOCATION,Paso Robles Municipal Arpt,CA,USA,TMY3,723965,35.67,-120.63,-8.0" = none ↔
      ((pysplit
          "LOCATION,Paso Robles Municipal Arpt,CA,USA,TMY3,723965,35.67,-120.63,-8.0").headD ""
          ≠ "LOCATION" ∨
        (pysplit
          "LOCATION,Paso Robles Municipal Arpt,CA,USA,TMY3,723965,35.67,-120.63,-8.0").length
          ≠ 10)) :=
  parse_rejects_iff_marker_or_field_count
    "LOCATION,Paso Robles Municipal Arpt,CA,USA,TMY3,723965,35.67,-120.63,-8.0"

/-- Claim C3, counterexample: the parser accepts a line whose station-id
field (the WMO index) is empty, so a record can be constructed successfully
with an empty `station_id`. -/
theorem parse_accepts_empty_station_id :
    parse_epw_location_line "LOCATION,aa,bb,cc,dd,,1,2,3,4" =
      some ⟨"Aa", "bb", "cc", "dd", "", "1", "2", "3", "4"⟩ := by decide

/-- Claim C3, amended: for every accepted line the station-id field of the
record equals the sixth comma-separated field of the line verbatim, so it is
non-empty exactly when that input field is non-empty; the parser itself does
not enforce non-emptiness. -/
theorem parse_station_id_passthrough (line : String) (loc : Location)
    (h : parse_epw_location_line line = some loc) :
    loc.wmo_index = (pysplit line).getD 5 "" := by
  unfold parse_epw_location_line at h
  exact parseFields_wmo_index (pysplit line) loc h

theorem parse_station_id_passthrough_witness :
    (⟨"Aa", "bb", "cc", "dd", "", "1", "2", "3", "4"⟩ : Location).wmo_index =
      (pysplit "LOCATION,aa,bb,cc,dd,,1,2,3,4").getD 5 "" :=
  parse_station_id_passthrough "LOCATION,aa,bb,cc,dd,,1,2,3,4"
    ⟨"Aa", "bb", "cc", "dd", "", "1", "2", "3", "4"⟩ (by decide)

/-- Claim C6: for every accepted line, the station name is rewritten to
title case, the region is replaced by the empty string exactly when it is
shorter than 2 characters, and the remaining seven fields pass through
unchanged; `pytitle` capitalizes the first letter of each alphabetic run and
lowercases the rest. -/
theorem parse_field_normalization (line : String)
    (f0 f1 f2 f3 f4 f5 f6 f7 f8 : String)
    (h : pysplit line = ["LOCATION", f0, f1, f2, f3, f4, f5, f6, f7, f8]) :
    parse_epw_location_line line =
      some ⟨pytitle f0, if f1.length < 2 then "" else f1, f2, f3, f4, f5, f6, f7, f8⟩ ∧
    pytitle "GENEVA" = "Geneva" ∧
    pytitle "PASO rObLeS municipal ARPt" = "Paso Robles Municipal Arpt" := by
  refine ⟨?_, by decide, by decide⟩
  unfold parse_epw_location_line
  rw [h]
  simp [parseFields]

theorem parse_field_normalization_witness :
    parse_epw_location_line "LOCATION,GENEVA,-,CHE,IWEC Data,067000,46.25,6.13,1.0,416.0" =
      some ⟨pytitle "GENEVA", if ("-" : String).length < 2 then "" else "-", "CHE",
        "IWEC Data", "067000", "46.25", "6.13", "1.0", "416.0"⟩ ∧
    pytitle "GENEVA" = "Geneva" ∧
    pytitle "PASO rObLeS municipal ARPt" = "Paso Robles Municipal Arpt" :=
  parse_field_normalization "LOCATION,GENEVA,-,CHE,IWEC Data,067000,46.25,6.13,1.0,416.0"
    "GENEVA" "-" "CHE" "IWEC Data" "067000" "46.25" "6.13" "1.0" "416.0" (by decide)

/-! ### Claim theorems: LineDecoder -/

/-- Claim C7: for every byte buffer whose decoding yields `txt`, the line
extractor returns the text before the first newline with surrounding
whitespace stripped when `txt` contains a newline, and fails when it does
not; in the latter case the decoding itself succeeded, so the failure is the
missing line boundary, not a decode failure. -/
theorem extract_line_requires_newline (content : List Byte) (txt : List Char)
    (hdec : _try_decode_bytes content = some txt) :
    (txt.contains '\n' = true →
      extract_epw_location_line content =
        some (String.mk (pystrip (txt.takeWhile (fun c => c != '\n'))))) ∧
    (txt.contains '\n' = false →
      extract_epw_location_line content = none ∧ _try_decode_bytes content ≠ none) := by
  unfold extract_epw_location_line
  rw [hdec]
  refine ⟨fun hnl => by simp only [hnl]; simp,
    fun hnl => ⟨by simp only [hnl]; simp, by simp⟩⟩

theorem extract_line_requires_newline_witness :
    extract_epw_location_line (asciiBytes " AB \nC") = some "AB" ∧
    extract_epw_location_line (asciiBytes "ABC") = none := by
  constructor
  · have h := (extract_line_requires_newline (asciiBytes " AB \nC")
      (String.toList " AB \nC") (by decide)).1 (by decide)
    rw [h]
    decide
  · exact ((extract_line_requires_newline (asciiBytes "ABC")
      (String.toList "ABC") (by decide)).2 (by decide)).1

/-- Claim C10: decoding is total — the second candidate encoding (iso-8859-1)
decodes every byte sequence, so `_try_decode_bytes` never returns `none` and
the only way `extract_epw_location_line` fails is the absence of a newline in
the decoded text. -/
theorem decode_is_total (content : List Byte) :
    (_try_decode_bytes content).isSome = true ∧
    (∀ txt, _try_decode_bytes content = some txt →
      (extract_epw_location_line content = none ↔ txt.contains '\n' = false)) := by
  constructor
  · show (tryDecodeList DECODING_SCHEMES content).isSome = true
    simp only [DECODING_SCHEMES, tryDecodeList, decodeWith]
    cases utf8Decode content <;> simp
  · intro txt hdec
    unfold extract_epw_location_line
    rw [hdec]
    by_cases h : txt.contains '\n' <;> simp [h]

theorem decode_is_total_witness :
    (_try_decode_bytes [(255 : Byte)]).isSome = true ∧
    (extract_epw_location_line [(255 : Byte)] = none ↔
      (latin1Decode [(255 : Byte)]).contains '\n' = false) := by
  have h := decode_is_total [(255 : Byte)]
  exact ⟨h.1, h.2 (latin1Decode [(255 : Byte)]) (by decide)⟩

/-! ### Claim theorems: PriorityMergeStore -/

/-- Claim C1: insertion canonicalizes the record's source label before
ranking — the examples of the spec and of the repository's tests hold for
`_clean_weather_source` — and the canonical code, not the raw label, is used
for the priority lookup and substituted into the stored record's
`weather_source` field (spec-modelled: the canonicalization step is absent
from the src/ copy of data_handler.py). -/
theorem add_location_canonicalizes_source (new_location : Location) (s : Store)
    (p : PriorityTable) :
    (_clean_weather_source "TMY2-23232" = "TMY2" ∧
     _clean_weather_source "IWEC Data" = "IWEC" ∧
     _clean_weather_source "--WYEC2-B-14636" = "WYEC2" ∧
     _clean_weather_source "  TMY--40309" = "TMY") ∧
    (cleanRecord new_location).weather_source =
      _clean_weather_source new_location.weather_source ∧
    (storeLookup s new_location.wmo_index = none →
      add_location_canonical new_location s p =
        s ++ [(new_location.wmo_index, cleanRecord new_location)]) ∧
    (∀ existing, storeLookup s new_location.wmo_index = some existing →
      add_location_canonical new_location s p =
        if priorityGet p (_clean_weather_source new_location.weather_source) >
            priorityGet p existing.weather_source then
          storeReplace s new_location.wmo_index (cleanRecord new_location)
        else s) := by
  have hk : (cleanRecord new_location).wmo_index = new_location.wmo_index := rfl
  have hw : (cleanRecord new_location).weather_source =
      _clean_weather_source new_location.weather_source := rfl
  refine ⟨by decide, hw, ?_, ?_⟩
  · intro h
    unfold add_location_canonical add_location
    rw [hk, h]
  · intro existing h
    unfold add_location_canonical add_location
    rw [hk, h, hw]

theorem add_location_canonicalizes_source_witness :
    add_location_canonical locGeneva [] SOURCE_PRIORITY =
      [("067000", cleanRecord locGeneva)] ∧
    (cleanRecord locGeneva).weather_source = "IWEC" := by
  have h := add_location_canonicalizes_source locGeneva [] SOURCE_PRIORITY
  constructor
  · rw [h.2.2.1 rfl]
    decide
  · rw [h.2.1]
    decide

/-- Claim C9: inserting a record twice into a store free of its station id
leaves a single entry for that id, equal to the record; the second insert is
a no-op. -/
theorem add_location_idempotent (r : Location) (s : Store) (p : PriorityTable)
    (hs : storeLookup s r.wmo_index = none) :
    add_location r (add_location r s p) p = add_location r s p ∧
    add_location r s p = s ++ [(r.wmo_index, r)] ∧
    (add_location r s p).filter (fun e => decide (e.1 = r.wmo_index)) =
      [(r.wmo_index, r)] := by
  have ha : add_location r s p = s ++ [(r.wmo_index, r)] := by
    unfold add_location
    rw [hs]
  have hlook : storeLookup (s ++ [(r.wmo_index, r)]) r.wmo_index = some r := by
    rw [storeLookup_append_of_none hs]
    simp [storeLookup]
  refine ⟨?_, ha, ?_⟩
  · rw [ha]
    unfold add_location
    rw [hlook]
    simp
  · rw [ha, List.filter_append, storeFilterKey_of_none hs]
    simp

theorem add_location_idempotent_witness :
    add_location locA_TMY3 (add_location locA_TMY3 [] SOURCE_PRIORITY) SOURCE_PRIORITY =
      add_location locA_TMY3 [] SOURCE_PRIORITY ∧
    add_location locA_TMY3 [] SOURCE_PRIORITY = [("12345", locA_TMY3)] := by
  have h := add_location_idempotent locA_TMY3 [] SOURCE_PRIORITY rfl
  refine ⟨h.1, ?_⟩
  rw [h.2.1]
  decide

/-- Claim C2: for two records a and b sharing a station id inserted into a
store free of that id, the two insertion orders yield the same store whenever
their priorities differ, retaining the strictly higher-ranked record; when
the priorities are equal the second insert is a no-op in either order, so the
first-inserted record is retained. -/
theorem add_location_priority_order_independence (a b : Location)
    (p : PriorityTable) (s : Store)
    (hid : b.wmo_index = a.wmo_index)
    (hs : storeLookup s a.wmo_index = none) :
    (priorityGet p a.weather_source ≠ priorityGet p b.weather_source →
      add_location b (add_location a s p) p = add_location a (add_location b s p) p ∧
      add_location b (add_location a s p) p =
        s ++ [(a.wmo_index,
          if priorityGet p b.weather_source < priorityGet p a.weather_source then a
          else b)]) ∧
    (priorityGet p a.weather_source = priorityGet p b.weather_source →
      add_location b (add_location a s p) p = add_location a s p ∧
      add_location a (add_location b s p) p = add_location b s p ∧
      add_location a s p = s ++ [(a.wmo_index, a)] ∧
      add_location b s p = s ++ [(a.wmo_index, b)]) := by
  have hsb : storeLookup s b.wmo_index = none := by rw [hid]; exact hs
  have ha : add_location a s p = s ++ [(a.wmo_index, a)] := by
    unfold add_location
    rw [hs]
  have hb : add_location b s p = s ++ [(a.wmo_index, b)] := by
    unfold add_location
    rw [hsb, hid]
  have lookA : storeLookup (s ++ [(a.wmo_index, a)]) b.wmo_index = some a := by
    rw [hid, storeLookup_append_of_none hs]
    simp [storeLookup]
  have lookB : storeLookup (s ++ [(a.wmo_index, b)]) a.wmo_index = some b := by
    rw [storeLookup_append_of_none hs]
    simp [storeLookup]
  have repA : storeReplace (s ++ [(a.wmo_index, a)]) b.wmo_index b =
      s ++ [(a.wmo_index, b)] := by
    rw [hid, storeReplace_append_of_none hs]
  have repB : storeReplace (s ++ [(a.wmo_index, b)]) a.wmo_index a =
      s ++ [(a.wmo_index, a)] := by
    rw [storeReplace_append_of_none hs]
  have stepBA : add_location b (add_location a s p) p =
      if priorityGet p b.weather_source > priorityGet p a.weather_source
      then s ++ [(a.wmo_index, b)] else s ++ [(a.wmo_index, a)] := by
    rw [ha, add_location_of_lookup_some lookA]
    by_cases hgt : priorityGet p b.weather_source > priorityGet p a.weather_source
    · rw [if_pos hgt, if_pos hgt, repA]
    · rw [if_neg hgt, if_neg hgt]
  have stepAB : add_location a (add_location b s p) p =
      if priorityGet p a.weather_source > priorityGet p b.weather_source
      then s ++ [(a.wmo_index, a)] else s ++ [(a.wmo_index, b)] := by
    rw [hb, add_location_of_lookup_some lookB]
    by_cases hgt : priorityGet p a.weather_source > priorityGet p b.weather_source
    · rw [if_pos hgt, if_pos hgt, repB]
    · rw [if_neg hgt, if_neg hgt]
  constructor
  · intro hne
    rcases Nat.lt_trichotomy (priorityGet p a.weather_source)
        (priorityGet p b.weather_source) with hlt | heq | hgt
    · have h1 : priorityGet p b.weather_source > priorityGet p a.weather_source := hlt
      have h2 : ¬ priorityGet p a.weather_source > priorityGet p b.weather_source :=
        Nat.lt_asymm hlt
      have h3 : ¬ priorityGet p b.weather_source < priorityGet p a.weather_source :=
        Nat.lt_asymm hlt
      refine ⟨?_, ?_⟩
      · rw [stepBA, stepAB, if_pos h1, if_neg h2]
      · rw [stepBA, if_pos h1, if_neg h3]
    · exact absurd heq hne
    · have h1 : ¬ priorityGet p b.weather_source > priorityGet p a.weather_source :=
        Nat.lt_asymm hgt
      have h2 : priorityGet p a.weather_source > priorityGet p b.weather_source := hgt
      have h3 : priorityGet p b.weather_source < priorityGet p a.weather_source := hgt
      refine ⟨?_, ?_⟩
      · rw [stepBA, stepAB, if_neg h1, if_pos h2]
      · rw [stepBA, if_neg h1, if_pos h3]
  · intro heq
    have h1 : ¬ priorityGet p b.weather_source > priorityGet p a.weather_source := by omega
    have h2 : ¬ priorityGet p a.weather_source > priorityGet p b.weather_source := by omega
    refine ⟨?_, ?_, ha, hb⟩
    · rw [stepBA, if_neg h1, ha]
    · rw [stepAB, if_neg h2, hb]

theorem add_location_priority_order_independence_witness :
    add_location locA_TMY2 (add_location locA_TMY3 [] SOURCE_PRIORITY) SOURCE_PRIORITY =
      add_location locA_TMY3 (add_location locA_TMY2 [] SOURCE_PRIORITY) SOURCE_PRIORITY ∧
    add_location locA_TMY2 (add_location locA_TMY3 [] SOURCE_PRIORITY) SOURCE_PRIORITY =
      [("12345", locA_TMY3)] ∧
    add_location locA_alt (add_location locA_TMY3 [] SOURCE_PRIORITY) SOURCE_PRIORITY =
      add_location locA_TMY3 [] SOURCE_PRIORITY := by
  have hd := (add_location_priority_order_independence locA_TMY3 locA_TMY2 SOURCE_PRIORITY []
    rfl rfl).1 (by decide)
  have he := (add_location_priority_order_independence locA_TMY3 locA_alt SOURCE_PRIORITY []
    rfl rfl).2 (by decide)
  refine ⟨hd.1, ?_, he.1⟩
  rw [hd.2]
  decide

/-! ### Claim theorems: PartialFetcher and CrawlDriver -/

theorem fetchRetryLoop_all_fail (fetch : Nat → Option (List Byte))
    (hf : ∀ i, fetch i = none) :
    ∀ fuel retries, fetchRetryLoop fetch retries fuel = (none, retries + fuel) := by
  intro fuel
  induction fuel with
  | zero => intro retries; rfl
  | succ n ih =>
    intro retries
    have hdef : fetchRetryLoop fetch retries (n + 1) =
        match fetch retries with
        | some b => (some b, retries + 1)
        | none => fetchRetryLoop fetch (retries + 1) n := rfl
    rw [hdef, hf retries, ih (retries + 1)]
    show ((none : Option (List Byte)), retries + 1 + n) = (none, retries + (n + 1))
    congr 1
    omega

/-- Claim C5: when every fetch attempt for a URL fails, the fetch is
attempted exactly `MAX_RETRIES` times and yields no header, after which the
URL contributes no record and the crawl continues with the remaining URLs
unchanged — exhausted retries are never fatal. -/
theorem fetch_retry_exhaustion_skips_url (fetch : String → Nat → Option (List Byte))
    (url : String) (rest : List String) (store : Store) (n : Nat)
    (hfail : ∀ i, fetch url i = none) :
    fetchWithRetries (fetch url) = (none, MAX_RETRIES) ∧
    scrapeLoop fetch (url :: rest) (store, n) = scrapeLoop fetch rest (store, n) := by
  have hret : fetchWithRetries (fetch url) = (none, MAX_RETRIES) := by
    unfold fetchWithRetries
    rw [fetchRetryLoop_all_fail (fetch url) hfail MAX_RETRIES 0, Nat.zero_add]
  refine ⟨hret, ?_⟩
  show (match (fetchWithRetries (fetch url)).1 with
      | none => scrapeLoop fetch rest (store, n)
      | some epw_header =>
        match extract_epw_location_line epw_header with
        | none => scrapeLoop fetch rest (store, n)
        | some first_line =>
          match parse_epw_location_line first_line with
          | none => scrapeLoop fetch rest (store, n)
          | some new_location =>
            scrapeLoop fetch rest (add_location new_location store SOURCE_PRIORITY, n + 1)) =
    scrapeLoop fetch rest (store, n)
  rw [hret]

theorem fetch_retry_exhaustion_skips_url_witness :
    fetchWithRetries ((fun (_ : String) (_ : Nat) => (none : Option (List Byte))) "u") =
      (none, MAX_RETRIES) ∧
    scrapeLoop (fun _ _ => none) ["u"] ([], 0) = scrapeLoop (fun _ _ => none) [] ([], 0) :=
  fetch_retry_exhaustion_skips_url (fun _ _ => none) "u" [] [] 0 (fun _ => rfl)

/-- Claim C8: evaluation at a feature list containing one feature without a
dictionary "properties" key. The URL list extracted from it is empty, yet the
final summary reports 1 as its total: the code logs `len(locations)` (the
number of GeoJSON features) as the denominator of "processed / total URLs",
not the length of the URL list it actually attempted. -/
theorem scrape_summary_total_counts_features :
    (scrape (fun _ => none) (fun _ _ => none) [Feature.noProps]).2 =
      { processed := 0, total := 1, unique := 0 } ∧
    (_get_epw_file_urls (fun _ => none) [Feature.noProps]).length = 0 := by
  exact ⟨rfl, rfl⟩
